import Mathlib

/-
Verification development for the session/event coordination core of the
keycloak-poc backend.  The Python services are shallowly embedded as pure
Lean functions over explicit state types:

  * the relational store (sessions and session_events tables) is a pair of
    row lists (DB);
  * the Redis stream is a list of entries with monotonically increasing
    numeric ids; consumer groups are a cursor plus a pending-id list;
  * asynchronous calls that can fail are modelled with Except, and the
    Python try/except blocks become matches on the Except value;
  * timestamps are natural numbers (seconds); datetime.now() becomes an
    explicit now parameter, uuid4() an explicit fresh-identifier parameter.

Each embedded definition keeps the name of the Python function or class it
translates (app/services/session_management_service.py,
app/services/redis_service.py, app/services/websocket_service.py,
app/models/session_models.py, app/api/session.py).
-/

set_option autoImplicit false

/-- Verified identity claim set handed to the session services (the
decoded JWT dictionary).  sub is required; session_state is the optional
provider session marker; a missing or empty session_state is falsy in the
Python code. -/
structure UserInfo where
  sub : String
  session_state : Option String
  preferred_username : Option String
  email : Option String
  roles : List String
deriving DecidableEq

/-- Row of the sessions table (session_models.Session). -/
structure SessionRow where
  session_id : String
  userid : String
  created_at : Nat
  last_updated : Nat
deriving DecidableEq

/-- Row of the session_events table (session_models.SessionEvent). -/
structure SessionEventRow where
  event_id : String
  session_id : String
  userid : String
  event : String
  studyid : Option String
  datetime : Nat
  source : String
  target : List String
  event_data : Option String
deriving DecidableEq

/-- The relational store: sessions table and session_events table, rows in
insertion order.  The queries issued by the services carry no ORDER BY, so
row order is the order the store keeps them in; the embedding uses
insertion order. -/
structure DB where
  sessions : List SessionRow
  events : List SessionEventRow
deriving DecidableEq

/-- Python: session_id = user_info.get("session_state"); if falsy a fresh
uuid4 string is generated (get_or_create_session, lines 63-67). -/
def sessionIdFromClaims (ui : UserInfo) (freshId : String) : String :=
  match ui.session_state with
  | none => freshId
  | some s => if s.isEmpty then freshId else s

/-- Errors surfaced by the relational store. -/
inductive DbError where
  | duplicateKey (table : String) (key : String)
deriving DecidableEq

/-- Decision taken by the SELECT phase of get_or_create_session. -/
inductive SessWrite where
  | insertNew
  | touch
deriving DecidableEq

/-- The SELECT in get_or_create_session (lines 72-74): look the session up
by primary key and decide between INSERT and update. -/
def gocsReadPhase (sid : String) (db : DB) : SessWrite :=
  match db.sessions.find? (fun r => r.session_id == sid) with
  | none => SessWrite.insertNew
  | some _ => SessWrite.touch

/-- INSERT into sessions.  session_id is the primary key, so inserting an
id that is already present fails with a duplicate-key error. -/
def insertSessionRow (row : SessionRow) (db : DB) : Except DbError DB :=
  if db.sessions.any (fun r => r.session_id == row.session_id) then
    Except.error (DbError.duplicateKey "sessions" row.session_id)
  else
    Except.ok { db with sessions := db.sessions ++ [row] }

/-- Update last_updated of the session row (get_or_create_session, lines
86-88). -/
def touchSessionRow (sid : String) (now : Nat) (db : DB) : DB :=
  { db with
    sessions := db.sessions.map (fun r =>
      if r.session_id == sid then { r with last_updated := now } else r) }

/-- The write phase of get_or_create_session: INSERT a new row (lines
76-84) or touch last_updated (lines 85-89), depending on what the SELECT
phase saw. -/
def gocsWritePhase (w : SessWrite) (sid uid : String) (now : Nat) (db : DB) :
    Except DbError DB :=
  match w with
  | SessWrite.insertNew =>
      insertSessionRow
        { session_id := sid, userid := uid, created_at := now, last_updated := now } db
  | SessWrite.touch => Except.ok (touchSessionRow sid now db)

/-- SessionManagementService.get_or_create_session: derive the session id
from the claims, then check-then-insert (or touch) the Session row.  The
read and write phases are sequenced directly; interleavings of two
concurrent calls are obtained by running the phases separately. -/
def get_or_create_session (ui : UserInfo) (freshId : String) (now : Nat)
    (db : DB) : Except DbError (String × DB) :=
  let sid := sessionIdFromClaims ui freshId
  match gocsWritePhase (gocsReadPhase sid db) sid ui.sub now db with
  | Except.ok db2 => Except.ok (sid, db2)
  | Except.error e => Except.error e

/-- The event dictionary returned by create_session_event (lines 140-148). -/
structure EventDict where
  event_id : String
  session_id : String
  event : String
  studyid : Option String
  datetime : Nat
  source : String
  target : List String
deriving DecidableEq

/-- SessionManagementService.create_session_event: build the SessionEvent
row with server-generated event_id and timestamp, commit it, and return
the materialized event dictionary. -/
def create_session_event (session_id : String) (ui : UserInfo)
    (event_type : String) (study_id : Option String) (source : String)
    (target : List String) (event_data : Option String) (eventId : String)
    (now : Nat) (db : DB) : EventDict × DB :=
  let row : SessionEventRow :=
    { event_id := eventId, session_id := session_id, userid := ui.sub,
      event := event_type, studyid := study_id, datetime := now,
      source := source, target := target, event_data := event_data }
  let ev : EventDict :=
    { event_id := eventId, session_id := session_id, event := event_type,
      studyid := study_id, datetime := now, source := source, target := target }
  (ev, { db with events := db.events ++ [row] })

/-- One formatted event of the session-state response (get_session_state,
lines 256-267). -/
structure EventView where
  event_id : String
  event : String
  studyid : Option String
  datetime : Nat
  source : String
  target : List String
deriving DecidableEq

/-- The session part of the session-state response. -/
structure SessionView where
  session_id : Option String
  userid : String
  events : List EventView
deriving DecidableEq

/-- The user_info part of the session-state response. -/
structure UserInfoView where
  preferred_username : Option String
  email : Option String
  roles : List String
deriving DecidableEq

/-- The full response shape of get_session_state. -/
structure SessionStateView where
  session : SessionView
  user_info : UserInfoView
deriving DecidableEq

/-- Formatting of one stored event row for the response. -/
def eventView (e : SessionEventRow) : EventView :=
  { event_id := e.event_id, event := e.event, studyid := e.studyid,
    datetime := e.datetime, source := e.source, target := e.target }

def userInfoView (ui : UserInfo) : UserInfoView :=
  { preferred_username := ui.preferred_username, email := ui.email,
    roles := ui.roles }

/-- SessionManagementService.get_session_state: empty-events shape when the
claims carry no session marker or no Session row exists; otherwise the
session row together with its events.  The selectinload query carries no
ORDER BY and the code applies no sort, so events come back in store order
(insertion order in this embedding). -/
def get_session_state (ui : UserInfo) (db : DB) : SessionStateView :=
  let uiv := userInfoView ui
  match ui.session_state with
  | none => { session := { session_id := none, userid := ui.sub, events := [] },
              user_info := uiv }
  | some s =>
      if s.isEmpty then
        { session := { session_id := none, userid := ui.sub, events := [] },
          user_info := uiv }
      else
        match db.sessions.find? (fun r => r.session_id == s) with
        | none =>
            { session := { session_id := some s, userid := ui.sub, events := [] },
              user_info := uiv }
        | some sess =>
            { session :=
                { session_id := some sess.session_id, userid := sess.userid,
                  events := (db.events.filter (fun e => e.session_id == s)).map eventView },
              user_info := uiv }

/-- Fields of one Redis stream message as assembled by
publish_to_redis_stream (lines 176-184); data and target hold the JSON
renderings. -/
structure StreamFields where
  event : String
  data : String
  user_id : String
  session_id : String
  event_id : String
  source : String
  target : String
deriving DecidableEq

/-- One entry of a Redis stream: the stream-assigned numeric id and the
field dictionary. -/
structure StreamEntry where
  id : Nat
  fields : StreamFields
deriving DecidableEq

/-- The id Redis assigns to the next appended entry: strictly larger than
every existing id. -/
def nextStreamId (s : List StreamEntry) : Nat :=
  (s.foldl (fun m e => max m e.id) 0) + 1

/-- Plain XADD with no MAXLEN argument: append only. -/
def xadd (s : List StreamEntry) (f : StreamFields) : List StreamEntry :=
  s ++ [{ id := nextStreamId s, fields := f }]

/-- Availability of the stream transport at publish time: the client was
never initialized, the append raises, or the append succeeds. -/
inductive StreamTransport where
  | noClient
  | appendRaises
  | available
deriving DecidableEq

/-- The stream_data dictionary built by publish_to_redis_stream. -/
def publishStreamFields (ev : EventDict) (ui : UserInfo) (dataJson : String) :
    StreamFields :=
  { event := ev.event, data := dataJson, user_id := ui.sub,
    session_id := ev.session_id, event_id := ev.event_id,
    source := ev.source, target := String.intercalate "," ev.target }

/-- SessionManagementService.publish_to_redis_stream: returns None without
touching the stream when the Redis client is missing (lines 170-172) or
when the append raises (lines 196-198, the except block); otherwise
xadd with no MAXLEN and return the new message id. -/
def publish_to_redis_stream (tr : StreamTransport) (ev : EventDict)
    (ui : UserInfo) (dataJson : String) (s : List StreamEntry) :
    Option Nat × List StreamEntry :=
  match tr with
  | StreamTransport.noClient => (none, s)
  | StreamTransport.appendRaises => (none, s)
  | StreamTransport.available =>
      (some (nextStreamId s), xadd s (publishStreamFields ev ui dataJson))

/-- XADD with MAXLEN ~ maxLen: append, then trim the oldest entries down
to the retained bound.  Redis approximate trimming retains at least
maxLen entries and evicts whole macro nodes beyond it; the embedding uses
the idealized trim to exactly the bound. -/
def xaddTrim (maxLen : Nat) (s : List StreamEntry) (f : StreamFields) :
    List StreamEntry :=
  let s2 := s ++ [{ id := nextStreamId s, fields := f }]
  s2.drop (s2.length - maxLen)

/-- RedisService.add_to_stream: XADD with maxlen=max_len (default 10000)
and approximate=True, returning the new message id. -/
def add_to_stream (maxLen : Nat) (eventType : String) (f : StreamFields)
    (s : List StreamEntry) : Nat × List StreamEntry :=
  (nextStreamId s, xaddTrim maxLen s { f with event := eventType })

/-- Consumer-group state over one stream: last-delivered cursor (0 is the
id before every real entry, so a cursor of 0 reads from the beginning)
and the pending entries list (delivered, not yet acknowledged). -/
structure ConsumerGroup where
  lastDelivered : Nat
  pending : List Nat
deriving DecidableEq

/-- Redis reply errors relevant to group creation. -/
inductive RedisReplyError where
  | busygroup
  | other (msg : String)
deriving DecidableEq

/-- Directory of consumer groups of one stream, keyed by group name. -/
abbrev GroupDir := List (String × ConsumerGroup)

/-- XGROUP CREATE stream group 0 MKSTREAM: fails with BUSYGROUP when the
group already exists, otherwise registers the group with cursor 0. -/
def xgroup_create (groups : GroupDir) (group : String) :
    Except RedisReplyError GroupDir :=
  match groups.lookup group with
  | some _ => Except.error RedisReplyError.busygroup
  | none => Except.ok (groups ++ [(group, { lastDelivered := 0, pending := [] })])

/-- RedisService.init_consumer_group: try XGROUP CREATE and swallow the
BUSYGROUP reply (lines 244-256); any other reply error is re-raised. -/
def init_consumer_group (groups : GroupDir) (group : String) :
    Except RedisReplyError GroupDir :=
  match xgroup_create groups group with
  | Except.ok gs => Except.ok gs
  | Except.error RedisReplyError.busygroup => Except.ok groups
  | Except.error e => Except.error e

/-- XACK: drop the acknowledged id from the pending list. -/
def xackGroup (g : ConsumerGroup) (msgId : Nat) : ConsumerGroup :=
  { g with pending := g.pending.filter (fun m => m != msgId) }

/-- Effect of XREADGROUP delivering a batch to the group: the cursor
advances past the delivered ids and they all become pending. -/
def deliverBatch (g : ConsumerGroup) (msgs : List (Nat × StreamFields)) :
    ConsumerGroup :=
  { lastDelivered := msgs.foldl (fun m x => max m x.1) g.lastDelivered,
    pending := g.pending ++ msgs.map Prod.fst }

/-- The per-batch body of read_stream (lines 345-356): each message is
yielded to the caller and, when the processing of that message finishes
without raising, immediately acknowledged; an exception raised at the
yield is caught by the surrounding except block, the message is left
unacknowledged, and the loop moves on to the next message of the batch.
process m f = true models processing that completed without raising. -/
def processDelivered (process : Nat → StreamFields → Bool)
    (g : ConsumerGroup) : List (Nat × StreamFields) → ConsumerGroup
  | [] => g
  | (m, f) :: rest =>
      if process m f then processDelivered process (xackGroup g m) rest
      else processDelivered process g rest

/-- One outcome of the blocking XREADGROUP call in the read_stream loop:
a batch of new messages, an empty read (block timeout), a transient read
error, or task cancellation. -/
inductive ReadOutcome where
  | batch (msgs : List (Nat × StreamFields))
  | timeout
  | readError
  | cancelled
deriving DecidableEq

/-- Why the read_stream loop stopped (or that the supplied outcome script
ran out while the loop was still running). -/
inductive LoopExit where
  | scriptDrained
  | cancelled
  | tooManyErrors
deriving DecidableEq

/-- Observable behavior of one run of the read_stream loop: the values
yielded to the caller (none is the keep-alive sentinel of an empty read),
the sleeps performed between retries, the final consumer-group state and
the exit reason. -/
structure LoopTrace where
  yields : List (Option (Nat × StreamFields))
  sleeps : List Nat
  group : ConsumerGroup
  exitReason : LoopExit
deriving DecidableEq

/-- The retry budget of read_stream (max_errors, line 330). -/
def maxErrors : Nat := 5

/-- The sleep before retry number errorCount (line 374):
min(error_count * 2, 30). -/
def backoffDelay (errorCount : Nat) : Nat := min (errorCount * 2) 30

/-- RedisService.read_stream main loop (lines 332-374), driven by a script
of read outcomes standing for what each XREADGROUP call returned.  A batch
is delivered to the group, every message is yielded and acknowledged iff
its processing succeeds, and the error count resets; an empty read yields
the none sentinel and also resets the error count; a read error increments
the count, stops the loop once maxErrors is reached, and otherwise sleeps
backoffDelay before retrying; cancellation breaks out of the loop. -/
def read_stream_loop (process : Nat → StreamFields → Bool)
    (g : ConsumerGroup) (errorCount : Nat) :
    List ReadOutcome → LoopTrace
  | [] => { yields := [], sleeps := [], group := g, exitReason := LoopExit.scriptDrained }
  | ReadOutcome.cancelled :: _ =>
      { yields := [], sleeps := [], group := g, exitReason := LoopExit.cancelled }
  | ReadOutcome.timeout :: rest =>
      let t := read_stream_loop process g 0 rest
      { t with yields := none :: t.yields }
  | ReadOutcome.batch msgs :: rest =>
      let g2 := processDelivered process (deliverBatch g msgs) msgs
      let t := read_stream_loop process g2 0 rest
      { t with yields := msgs.map some ++ t.yields }
  | ReadOutcome.readError :: rest =>
      let ec := errorCount + 1
      if maxErrors ≤ ec then
        { yields := [], sleeps := [], group := g, exitReason := LoopExit.tooManyErrors }
      else
        let t := read_stream_loop process g ec rest
        { t with sleeps := backoffDelay ec :: t.sleeps }

/-- One registered WebSocket connection record (the ws_connection hash
written by WebSocketService.register_connection). -/
structure ConnRecord where
  connection_id : String
  user_id : String
  app_type : String
  connected_at : Nat
  last_activity : Nat
deriving DecidableEq

/-- The connection registry kept in Redis: the connection hashes and the
per-user connection-id sets (ws_user keys). -/
structure WSState where
  conns : List ConnRecord
  userSets : List (String × List String)
deriving DecidableEq

/-- SREM of a connection id from the owning user set. -/
def sremUserSet (sets : List (String × List String)) (uid cid : String) :
    List (String × List String) :=
  sets.map (fun p => if p.1 == uid then (p.1, p.2.filter (fun c => c != cid)) else p)

/-- WebSocketService.unregister_connection (lines 117-153): read the
connection hash; when present, remove the id from the user set and delete
the hash, returning true; when absent return false. -/
def unregister_connection (cid : String) (st : WSState) : Bool × WSState :=
  match st.conns.find? (fun c => c.connection_id == cid) with
  | none => (false, st)
  | some c =>
      (true,
       { conns := st.conns.filter (fun k => k.connection_id != cid),
         userSets := sremUserSet st.userSets c.user_id cid })

/-- A Python value relevant to the age computation of the stale-connection
sweep: an ISO-format string or a datetime. -/
inductive PyVal where
  | pstr (s : String)
  | pdt (t : Nat)
deriving DecidableEq

/-- The errors the sweep catches per connection: ValueError from parsing
and TypeError from the subtraction. -/
inductive PyValueError where
  | typeOrValueMismatch
deriving DecidableEq

/-- Python subtraction as used on the timestamps: defined for two
datetimes, a TypeError for any other operand combination, in particular
for an ISO string minus a datetime. -/
def pyDatetimeSub : PyVal → PyVal → Except PyValueError Int
  | PyVal.pdt a, PyVal.pdt b => Except.ok ((a : Int) - b)
  | _, _ => Except.error PyValueError.typeOrValueMismatch

/-- Rendering of a timestamp as its stored ISO string. -/
def isoformat (t : Nat) : String := toString t

/-- datetime.fromisoformat on the stored string; raises ValueError on an
unparsable string. -/
def fromisoformat (s : String) : Except PyValueError Nat :=
  match s.toNat? with
  | some t => Except.ok t
  | none => Except.error PyValueError.typeOrValueMismatch

/-- The age computation of the cleanup sweep (lines 416-421): parse the
stored last_activity string back into a datetime, then subtract it from
current_time.  current_time is the value bound at line 403:
datetime.now(timezone.utc).isoformat(), an ISO string, not a datetime, so
the subtraction is a string minus a datetime. -/
def ageSeconds (now : Nat) (c : ConnRecord) : Except PyValueError Int :=
  match fromisoformat (isoformat c.last_activity) with
  | Except.error e => Except.error e
  | Except.ok t => pyDatetimeSub (PyVal.pstr (isoformat now)) (PyVal.pdt t)

/-- One iteration of the cleanup sweep over a scanned connection key
(cleanup_stale_connections, lines 410-435).  The try block catches the
TypeError of the age subtraction (together with ValueError from parsing)
and moves on to the next key, so the unregister branch below it only runs
when the age computation succeeds. -/
def cleanupStep (now maxAge : Nat) (acc : Nat × WSState) (cid : String) :
    Nat × WSState :=
  match acc.2.conns.find? (fun c => c.connection_id == cid) with
  | none => acc
  | some c =>
      match ageSeconds now c with
      | Except.error _ => acc
      | Except.ok age =>
          if (maxAge : Int) < age then
            let r := unregister_connection cid acc.2
            if r.1 then (acc.1 + 1, r.2) else (acc.1, r.2)
          else acc

/-- WebSocketService.cleanup_stale_connections: sweep every scanned
connection key with cleanupStep and return the number of connections
removed together with the resulting registry. -/
def cleanup_stale_connections (now maxAge : Nat) (st : WSState) :
    Nat × WSState :=
  (st.conns.map (fun c => c.connection_id)).foldl (cleanupStep now maxAge) (0, st)

/-- Python whitespace as stripped by str.strip. -/
def pyIsSpace (c : Char) : Bool :=
  c == ' ' || c == '\t' || c == '\n' || c == '\r' || c == '\x0b' || c == '\x0c'

/-- Python str.strip with no argument: drop leading and trailing
whitespace. -/
def pyStrip (s : String) : String :=
  ((s.data.dropWhile pyIsSpace).reverse.dropWhile pyIsSpace).reverse.asString

/-- The fixed application-type set of the target validators
(session_models.py, valid_apps). -/
def valid_apps : List String := ["viewer", "dictation", "worklist", "admin"]

/-- A validation error naming the field that failed. -/
structure FieldError where
  field : String
  msg : String
deriving DecidableEq

/-- The request body of the study_opened endpoint
(session_models.StudyOpenedRequest), before validation. -/
structure StudyOpenedRequest where
  study_id : String
  patient_id : String
  patient_dob : String
  accession_number : String
  current_study_name : String
  source : String
  target : List String
deriving DecidableEq

/-- The validators of StudyOpenedRequest, applied by the framework before
the request reaches the handler: validate_non_empty_strings over study_id,
patient_id, accession_number, current_study_name and source (empty after
strip is rejected, the stripped value is kept), and validate_target_apps
over target (non-empty, every member in valid_apps).  patient_dob carries
no validator.  The first failing check is reported with its field. -/
def validateStudyOpenedRequest (r : StudyOpenedRequest) :
    Except FieldError StudyOpenedRequest :=
  if (pyStrip r.study_id).isEmpty then
    Except.error { field := "study_id", msg := "Field cannot be empty" }
  else if (pyStrip r.patient_id).isEmpty then
    Except.error { field := "patient_id", msg := "Field cannot be empty" }
  else if (pyStrip r.accession_number).isEmpty then
    Except.error { field := "accession_number", msg := "Field cannot be empty" }
  else if (pyStrip r.current_study_name).isEmpty then
    Except.error { field := "current_study_name", msg := "Field cannot be empty" }
  else if (pyStrip r.source).isEmpty then
    Except.error { field := "source", msg := "Field cannot be empty" }
  else if r.target.isEmpty then
    Except.error { field := "target", msg := "At least one target application is required" }
  else
    match r.target.find? (fun a => !(valid_apps.contains a)) with
    | some a => Except.error { field := "target", msg := "Invalid target app: " ++ a }
    | none =>
        Except.ok { r with
          study_id := pyStrip r.study_id, patient_id := pyStrip r.patient_id,
          accession_number := pyStrip r.accession_number,
          current_study_name := pyStrip r.current_study_name,
          source := pyStrip r.source }

/-- Placeholder rendering of the event_data dictionary assembled by the
study_opened handler (api/session.py lines 91-97). -/
def openStudyDataJson (r : StudyOpenedRequest) : String :=
  String.intercalate "|"
    [r.study_id, r.patient_id, r.patient_dob, r.accession_number,
     r.current_study_name]

/-- Result of the study_opened endpoint. -/
inductive EndpointResult where
  | validationError (e : FieldError)
  | storageError (e : DbError)
  | ok (ev : EventDict) (redisId : Option Nat)
deriving DecidableEq

/-- The study_opened endpoint (api/session.py lines 62-129): request-body
validation runs first and a failing request never reaches the handler, so
neither the store nor the stream is touched; otherwise the handler runs
get_or_create_session, create_session_event with event type open_study,
and publish_to_redis_stream. -/
def study_opened (raw : StudyOpenedRequest) (ui : UserInfo)
    (tr : StreamTransport) (freshSid eventId : String) (now : Nat) (db : DB)
    (s : List StreamEntry) : EndpointResult × DB × List StreamEntry :=
  match validateStudyOpenedRequest raw with
  | Except.error e => (EndpointResult.validationError e, db, s)
  | Except.ok req =>
      match get_or_create_session ui freshSid now db with
      | Except.error e => (EndpointResult.storageError e, db, s)
      | Except.ok (sid, db1) =>
          let r := create_session_event sid ui "open_study" (some req.study_id)
            req.source req.target (some (openStudyDataJson req)) eventId now db1
          let p := publish_to_redis_stream tr r.1 ui (openStudyDataJson req) s
          (EndpointResult.ok r.1 p.1, r.2, p.2)

/-- Decision procedure for the spec notion of capped exponential backoff:
every delay is the double of the previous one, capped. -/
def isGeometricBackoff (cap : Nat) : List Nat → Bool
  | a :: b :: rest => (b == min (2 * a) cap) && isGeometricBackoff cap (b :: rest)
  | _ => true

/-- Iterated committed-event publishing through publish_to_redis_stream
with the transport available. -/
def publishRepeat (ev : EventDict) (ui : UserInfo) (dataJson : String) :
    Nat → List StreamEntry → List StreamEntry
  | 0, s => s
  | n + 1, s =>
      publishRepeat ev ui dataJson n
        (publish_to_redis_stream StreamTransport.available ev ui dataJson s).2

/-- Sample claim set carrying the session marker s1. -/
def ui0 : UserInfo :=
  { sub := "u1", session_state := some "s1", preferred_username := none,
    email := none, roles := [] }

/-- Sample Session row for marker s1. -/
def srow0 : SessionRow :=
  { session_id := "s1", userid := "u1", created_at := 0, last_updated := 0 }

/-- Store holding only the session row for s1. -/
def dbOneSession : DB := { sessions := [srow0], events := [] }

/-- Sample committed event dictionary. -/
def ev0 : EventDict :=
  { event_id := "e1", session_id := "s1", event := "open_study",
    studyid := some "st1", datetime := 1, source := "dictation",
    target := ["viewer"] }

/-- Sample stream message fields. -/
def sampleFields : StreamFields :=
  { event := "open_study", data := "d", user_id := "u1", session_id := "s1",
    event_id := "e1", source := "dictation", target := "viewer" }

/-- Processing that always succeeds. -/
def pTrue : Nat → StreamFields → Bool := fun _ _ => true

/-- Processing that succeeds exactly on message id 1. -/
def pOnlyOne : Nat → StreamFields → Bool := fun m _ => m == 1

/-- A fresh consumer group. -/
def g0 : ConsumerGroup := { lastDelivered := 0, pending := [] }

/-- The Session row written by the first racing insert of session s1. -/
def srowInserted : SessionRow :=
  { session_id := "s1", userid := "u1", created_at := 1, last_updated := 1 }

/-- Store state after the first racing insert of session s1. -/
def dbAfterInsert : DB := { sessions := [srowInserted], events := [] }

/-- A connection whose last activity is far in the past. -/
def wsStaleConn : ConnRecord :=
  { connection_id := "c1", user_id := "u1", app_type := "dictation",
    connected_at := 100, last_activity := 100 }

/-- Registry holding only that stale connection. -/
def wsStale : WSState :=
  { conns := [wsStaleConn], userSets := [("u1", ["c1"])] }

/-- Stored event row used by the session-state samples. -/
def evRow1 : SessionEventRow :=
  { event_id := "e1", session_id := "s1", userid := "u1",
    event := "open_study", studyid := some "st1", datetime := 3,
    source := "dictation", target := ["viewer"], event_data := none }

/-- Store with one session and one event. -/
def dbSorted : DB := { sessions := [srow0], events := [evRow1] }

/-- An open-study request whose target list holds an unknown application. -/
def raw0 : StudyOpenedRequest :=
  { study_id := "ST1", patient_id := "P1", patient_dob := "1990-01-01",
    accession_number := "A1", current_study_name := "CT Chest",
    source := "dictation", target := ["viewer", "bogus"] }

theorem ageSeconds_error (now : Nat) (c : ConnRecord) :
    ageSeconds now c = Except.error PyValueError.typeOrValueMismatch := by
  unfold ageSeconds
  cases h : fromisoformat (isoformat c.last_activity) with
  | error e => cases e; rfl
  | ok t => rfl

theorem cleanupStep_fix (now maxAge : Nat) (acc : Nat × WSState) (cid : String) :
    cleanupStep now maxAge acc cid = acc := by
  unfold cleanupStep
  simp only [ageSeconds_error]
  split <;> rfl

theorem foldl_cleanupStep_fix (now maxAge : Nat) (ids : List String)
    (acc : Nat × WSState) : ids.foldl (cleanupStep now maxAge) acc = acc := by
  induction ids generalizing acc with
  | nil => rfl
  | cons a l ih => rw [List.foldl_cons, cleanupStep_fix]; exact ih acc

/-- C9: the claim says cleanup_stale_connections unregisters every
connection whose last_activity is older than max_age and returns the
count.  The code binds current_time to an ISO string and subtracts a
datetime from it, so every iteration raises TypeError, which the inner
except swallows: the sweep removes nothing and always returns 0, even for
a connection that is plainly stale and that unregister_connection could
remove. -/
theorem cleanup_stale_connections_removes_nothing :
    (∀ (now maxAge : Nat) (st : WSState),
        cleanup_stale_connections now maxAge st = (0, st))
    ∧ cleanup_stale_connections 10000 3600 wsStale = (0, wsStale)
    ∧ 3600 < 10000 - wsStaleConn.last_activity
    ∧ (unregister_connection "c1" wsStale).1 = true := by
  refine ⟨fun now maxAge st => foldl_cleanupStep_fix now maxAge _ _,
    foldl_cleanupStep_fix 10000 3600 _ _, by decide, by decide⟩

/-- C10: an error in the processing of one yielded message is contained
to that message.  The yields, the retry sleeps and the exit reason of the
read_stream loop do not depend on the processing outcomes at all (nor on
the group state): a processing failure never terminates the loop, never
counts toward the transient-read-error budget, and never suppresses the
yielding of later messages of the same batch or of later reads; only the
acknowledgment state (the group) differs. -/
theorem read_stream_processing_error_contained
    (script : List ReadOutcome) (ec : Nat)
    (p q : Nat → StreamFields → Bool) (g1 g2 : ConsumerGroup) :
    (read_stream_loop p g1 ec script).yields = (read_stream_loop q g2 ec script).yields
    ∧ (read_stream_loop p g1 ec script).sleeps = (read_stream_loop q g2 ec script).sleeps
    ∧ (read_stream_loop p g1 ec script).exitReason
        = (read_stream_loop q g2 ec script).exitReason := by
  induction script generalizing ec g1 g2 with
  | nil => exact ⟨rfl, rfl, rfl⟩
  | cons o rest ih =>
    cases o with
    | cancelled => exact ⟨rfl, rfl, rfl⟩
    | timeout =>
        obtain ⟨hy, hs, he⟩ := ih 0 g1 g2
        exact ⟨congrArg (List.cons none) hy, hs, he⟩
    | batch msgs =>
        obtain ⟨hy, hs, he⟩ := ih 0 (processDelivered p (deliverBatch g1 msgs) msgs)
          (processDelivered q (deliverBatch g2 msgs) msgs)
        exact ⟨congrArg (fun l => msgs.map some ++ l) hy, hs, he⟩
    | readError =>
        by_cases hec : maxErrors ≤ ec + 1
        · refine ⟨?_, ?_, ?_⟩ <;>
            (simp only [read_stream_loop]; rw [if_pos hec, if_pos hec])
        · obtain ⟨hy, hs, he⟩ := ih (ec + 1) g1 g2
          refine ⟨?_, ?_, ?_⟩ <;>
            (simp only [read_stream_loop]; rw [if_neg hec, if_neg hec])
          · exact hy
          · exact congrArg (fun l => backoffDelay (ec + 1) :: l) hs
          · exact he

/-- C7 counterexample: driven into five consecutive transient read
errors, the loop sleeps 2, 4, 6, 8 seconds between retries; this delay
sequence is linear, not capped-exponential (6 is not min(2*4, 30)). -/
theorem read_stream_backoff_not_exponential :
    (read_stream_loop pTrue g0 0 (List.replicate 5 ReadOutcome.readError)).sleeps
      = [2, 4, 6, 8]
    ∧ isGeometricBackoff 30
        (read_stream_loop pTrue g0 0 (List.replicate 5 ReadOutcome.readError)).sleeps
      = false := by
  exact ⟨rfl, rfl⟩

/-- C7 amended: consecutive transient read errors back off linearly at
min(2 * errorCount, 30) seconds; the fifth consecutive error stops the
loop with the tooManyErrors exit and nothing further is read; a
successful read (batch or empty) resets the error count to zero. -/
theorem read_stream_backoff_linear_capped :
    (∀ (p : Nat → StreamFields → Bool) (g : ConsumerGroup)
        (rest : List ReadOutcome),
        read_stream_loop p g 0 (List.replicate maxErrors ReadOutcome.readError ++ rest)
          = { yields := [], sleeps := [2, 4, 6, 8], group := g,
              exitReason := LoopExit.tooManyErrors })
    ∧ (∀ (p : Nat → StreamFields → Bool) (g : ConsumerGroup) (ec : Nat)
          (rest : List ReadOutcome), ec + 1 < maxErrors →
        read_stream_loop p g ec (ReadOutcome.readError :: rest)
          = { read_stream_loop p g (ec + 1) rest with
              sleeps := backoffDelay (ec + 1)
                :: (read_stream_loop p g (ec + 1) rest).sleeps })
    ∧ (∀ (p : Nat → StreamFields → Bool) (g : ConsumerGroup) (ec : Nat)
          (rest : List ReadOutcome),
        read_stream_loop p g ec (ReadOutcome.timeout :: rest)
          = { read_stream_loop p g 0 rest with
              yields := none :: (read_stream_loop p g 0 rest).yields })
    ∧ (∀ k : Nat, backoffDelay k = min (k * 2) 30) := by
  refine ⟨fun p g rest => rfl, ?_, fun p g ec rest => rfl, fun k => rfl⟩
  intro p g ec rest h
  have hnot : ¬ maxErrors ≤ ec + 1 := by omega
  simp only [read_stream_loop, if_neg hnot]

/-- Witness for the amended C7 theorem at concrete inputs. -/
theorem read_stream_backoff_linear_capped_witness :
    read_stream_loop pTrue g0 0 [ReadOutcome.readError]
      = { read_stream_loop pTrue g0 1 [] with
          sleeps := backoffDelay 1 :: (read_stream_loop pTrue g0 1 []).sleeps } :=
  read_stream_backoff_linear_capped.2.1 pTrue g0 0 [] (by decide)

theorem publishRepeat_length (ev : EventDict) (ui : UserInfo) (d : String)
    (n : Nat) (s : List StreamEntry) :
    (publishRepeat ev ui d n s).length = s.length + n := by
  induction n generalizing s with
  | zero => rfl
  | succ k ih =>
      have h2 : (publish_to_redis_stream StreamTransport.available ev ui d s).2.length
          = s.length + 1 := by
        simp [publish_to_redis_stream, xadd]
      calc (publishRepeat ev ui d (k + 1) s).length
          = (publishRepeat ev ui d k
              (publish_to_redis_stream StreamTransport.available ev ui d s).2).length := rfl
        _ = (publish_to_redis_stream StreamTransport.available ev ui d s).2.length + k :=
            ih _
        _ = s.length + (k + 1) := by rw [h2]; omega

/-- C3 counterexample: the committed-event publish path
(publish_to_redis_stream) passes no MAXLEN to XADD, so its appends are
never trimmed: after 10001 publishes from an empty stream the length is
10001, past the only configured retained-length bound in the code
(add_to_stream max_len, default 10000). -/
theorem publish_to_redis_stream_unbounded :
    10000 < (publishRepeat ev0 ui0 "d" 10001 []).length := by
  have h := publishRepeat_length ev0 ui0 "d" 10001 []
  simp only [List.length_nil] at h
  omega

/-- C3 amended: the generic stream append add_to_stream does enforce the
configured maximum retained length on every call (the idealized
approximate trim keeps at most max_len entries), but the committed-event
publish path appends untrimmed, growing the stream by one entry on every
publish. -/
theorem add_to_stream_enforces_maxlen
    (maxLen : Nat) (eventType : String) (f : StreamFields)
    (s : List StreamEntry) (ev : EventDict) (ui : UserInfo) (d : String) :
    (add_to_stream maxLen eventType f s).2.length ≤ maxLen
    ∧ (publish_to_redis_stream StreamTransport.available ev ui d s).2.length
        = s.length + 1 := by
  constructor
  · simp only [add_to_stream, xaddTrim]
    rw [List.length_drop, List.length_append]
    omega
  · simp [publish_to_redis_stream, xadd]

/-- C8: consumer-group setup is idempotent.  When the group is absent,
init_consumer_group registers it with read cursor 0 (the id before every
entry, so consumption starts from the beginning of the stream); when the
group already exists, the BUSYGROUP reply is swallowed and the call
returns successfully with the directory, cursor included, unchanged. -/
theorem init_consumer_group_idempotent (groups : GroupDir) (group : String) :
    (groups.lookup group = none →
        init_consumer_group groups group
          = Except.ok (groups ++ [(group, { lastDelivered := 0, pending := [] })]))
    ∧ (∀ g : ConsumerGroup, groups.lookup group = some g →
        init_consumer_group groups group = Except.ok groups) := by
  constructor
  · intro h
    simp [init_consumer_group, xgroup_create, h]
  · intro g h
    simp [init_consumer_group, xgroup_create, h]

/-- Witness for C8: creating the group on an empty directory, then
calling setup again on a directory where the group has advanced to
cursor 7 with one pending entry: the second call succeeds and changes
nothing. -/
theorem init_consumer_group_idempotent_witness :
    init_consumer_group [] "radgroup"
      = Except.ok [("radgroup", { lastDelivered := 0, pending := [] })]
    ∧ init_consumer_group [("radgroup", { lastDelivered := 7, pending := [3] })]
        "radgroup"
      = Except.ok [("radgroup", { lastDelivered := 7, pending := [3] })] := by
  constructor
  · have h := (init_consumer_group_idempotent [] "radgroup").1 rfl
    simpa using h
  · exact (init_consumer_group_idempotent
      [("radgroup", { lastDelivered := 7, pending := [3] })] "radgroup").2
      { lastDelivered := 7, pending := [3] } rfl

theorem get_session_state_events_eq (ui : UserInfo) (db : DB) (sid : String)
    (srow : SessionRow)
    (hSid : ui.session_state = some sid) (hne : sid.isEmpty = false)
    (hfind : db.sessions.find? (fun r => r.session_id == sid) = some srow) :
    (get_session_state ui db).session.events
      = (db.events.filter (fun e => e.session_id == sid)).map eventView := by
  simp [get_session_state, hSid, hne, hfind]

/-- C1: when the stream transport is unavailable at publish time (no
Redis client, or the append raises), publish_to_redis_stream returns
none, the stream is untouched, and the event committed by
create_session_event is still returned by get_session_state, so a stream
outage never turns a successful append into a request failure. -/
theorem publish_outage_preserves_committed_event
    (tr : StreamTransport) (sid : String) (ui : UserInfo) (etype : String)
    (studyId : Option String) (src : String) (tgt : List String)
    (edata : Option String) (eid : String) (now : Nat) (db : DB)
    (s : List StreamEntry) (dataJson : String) (srow : SessionRow)
    (htr : tr ≠ StreamTransport.available)
    (hSid : ui.session_state = some sid) (hne : sid.isEmpty = false)
    (hrow : db.sessions.find? (fun r => r.session_id == sid) = some srow) :
    (publish_to_redis_stream tr
        (create_session_event sid ui etype studyId src tgt edata eid now db).1
        ui dataJson s).1 = none
    ∧ (publish_to_redis_stream tr
        (create_session_event sid ui etype studyId src tgt edata eid now db).1
        ui dataJson s).2 = s
    ∧ ∃ v ∈ (get_session_state ui (create_session_event sid ui etype studyId
          src tgt edata eid now db).2).session.events,
        v.event_id = eid ∧ v.event = etype ∧ v.datetime = now := by
  refine ⟨?_, ?_, ?_⟩
  · cases tr with
    | noClient => rfl
    | appendRaises => rfl
    | available => exact absurd rfl htr
  · cases tr with
    | noClient => rfl
    | appendRaises => rfl
    | available => exact absurd rfl htr
  · have hmem : ({ event_id := eid, session_id := sid, userid := ui.sub, event := etype, studyid := studyId, datetime := now, source := src, target := tgt, event_data := edata } : SessionEventRow) ∈ (db.events ++ [({ event_id := eid, session_id := sid, userid := ui.sub, event := etype, studyid := studyId, datetime := now, source := src, target := tgt, event_data := edata } : SessionEventRow)]).filter (fun e => e.session_id == sid) := by
      rw [List.mem_filter]
      exact ⟨List.mem_append_right _ (List.mem_singleton_self _), by simp⟩
    refine ⟨eventView { event_id := eid, session_id := sid, userid := ui.sub, event := etype, studyid := studyId, datetime := now, source := src, target := tgt, event_data := edata }, ?_, rfl, rfl, rfl⟩
    rw [get_session_state_events_eq ui
      (create_session_event sid ui etype studyId src tgt edata eid now db).2
      sid srow hSid hne hrow]
    exact List.mem_map_of_mem eventView hmem

/-- Witness for C1 at concrete inputs: transport without a client, one
existing session row, event e9 committed at time 5. -/
theorem publish_outage_preserves_committed_event_witness :
    (publish_to_redis_stream StreamTransport.noClient
        (create_session_event "s1" ui0 "open_study" (some "st1") "dictation"
          ["viewer"] none "e9" 5 dbOneSession).1 ui0 "d" []).1 = none
    ∧ (publish_to_redis_stream StreamTransport.noClient
        (create_session_event "s1" ui0 "open_study" (some "st1") "dictation"
          ["viewer"] none "e9" 5 dbOneSession).1 ui0 "d" []).2 = []
    ∧ ∃ v ∈ (get_session_state ui0 (create_session_event "s1" ui0 "open_study"
          (some "st1") "dictation" ["viewer"] none "e9" 5
          dbOneSession).2).session.events,
        v.event_id = "e9" ∧ v.event = "open_study" ∧ v.datetime = 5 :=
  publish_outage_preserves_committed_event StreamTransport.noClient "s1" ui0
    "open_study" (some "st1") "dictation" ["viewer"] none "e9" 5 dbOneSession
    [] "d" srow0 (by decide) rfl rfl rfl

theorem xackGroup_pending_mem (g : ConsumerGroup) (k m : Nat) :
    m ∈ (xackGroup g k).pending ↔ m ∈ g.pending ∧ m ≠ k := by
  simp [xackGroup, List.mem_filter]

theorem processDelivered_pending_mono (p : Nat → StreamFields → Bool)
    (batch : List (Nat × StreamFields)) :
    ∀ (g : ConsumerGroup) (m : Nat),
      m ∈ (processDelivered p g batch).pending → m ∈ g.pending := by
  induction batch with
  | nil => intro g m h; exact h
  | cons x rest ih =>
      intro g m h
      obtain ⟨k, kf⟩ := x
      by_cases hpk : p k kf = true
      · simp only [processDelivered, if_pos hpk] at h
        exact ((xackGroup_pending_mem g k m).1 (ih _ _ h)).1
      · simp only [processDelivered, if_neg hpk] at h
        exact ih _ _ h

theorem processDelivered_pending_of_not_in_batch
    (p : Nat → StreamFields → Bool) (batch : List (Nat × StreamFields)) :
    ∀ (g : ConsumerGroup) (m : Nat), m ∈ g.pending →
      (∀ x ∈ batch, x.1 ≠ m) → m ∈ (processDelivered p g batch).pending := by
  induction batch with
  | nil => intro g m hm _; exact hm
  | cons x rest ih =>
      intro g m hm hnb
      obtain ⟨k, kf⟩ := x
      have hkm : k ≠ m := hnb (k, kf) (List.mem_cons_self _ _)
      by_cases hpk : p k kf = true
      · simp only [processDelivered, if_pos hpk]
        exact ih _ _ ((xackGroup_pending_mem g k m).2 ⟨hm, fun h => hkm h.symm⟩)
          (fun x hx => hnb x (List.mem_cons_of_mem _ hx))
      · simp only [processDelivered, if_neg hpk]
        exact ih _ _ hm (fun x hx => hnb x (List.mem_cons_of_mem _ hx))

theorem processDelivered_pending_iff
    (p : Nat → StreamFields → Bool) (batch : List (Nat × StreamFields)) :
    ∀ (g : ConsumerGroup) (m : Nat) (f : StreamFields),
      (batch.map Prod.fst).Nodup → (m, f) ∈ batch → m ∈ g.pending →
      (m ∈ (processDelivered p g batch).pending ↔ p m f = false) := by
  induction batch with
  | nil => intro g m f _ hmem _; cases hmem
  | cons x rest ih =>
      intro g m f hnd hmem hp
      obtain ⟨k, kf⟩ := x
      rcases List.mem_cons.mp hmem with heq | hmem2
      · cases heq
        by_cases hpk : p m f = true
        · simp only [processDelivered, if_pos hpk]
          constructor
          · intro hmm
            have h2 := processDelivered_pending_mono p rest _ _ hmm
            exact absurd rfl ((xackGroup_pending_mem g m m).1 h2).2
          · intro hfalse
            rw [hpk] at hfalse
            cases hfalse
        · simp only [processDelivered, if_neg hpk]
          have hknr : m ∉ rest.map Prod.fst := (List.nodup_cons.mp hnd).1
          constructor
          · intro _
            exact Bool.eq_false_iff.mpr hpk
          · intro _
            exact processDelivered_pending_of_not_in_batch p rest g m hp
              (fun x hx h => hknr (h ▸ List.mem_map_of_mem Prod.fst hx))
      · have hm_in : m ∈ rest.map Prod.fst := by
          have := List.mem_map_of_mem Prod.fst hmem2
          simpa using this
        have hkm : k ≠ m := fun h => (List.nodup_cons.mp hnd).1 (h ▸ hm_in)
        have hnd2 : (rest.map Prod.fst).Nodup := (List.nodup_cons.mp hnd).2
        by_cases hpk : p k kf = true
        · simp only [processDelivered, if_pos hpk]
          exact ih _ m f hnd2 hmem2
            ((xackGroup_pending_mem g k m).2 ⟨hp, fun h => hkm h.symm⟩)
        · simp only [processDelivered, if_neg hpk]
          exact ih _ m f hnd2 hmem2 hp

/-- C4: for a batch delivered to the consumer group by the read loop,
after the per-batch yield-and-acknowledge body runs, a delivered message
is still pending exactly when its processing raised; a message whose
processing completed without raising has been acknowledged (removed from
pending), and a failed message stays pending for redelivery. -/
theorem read_stream_ack_iff_processing_succeeds
    (process : Nat → StreamFields → Bool) (g : ConsumerGroup)
    (batch : List (Nat × StreamFields)) (m : Nat) (f : StreamFields)
    (hnd : (batch.map Prod.fst).Nodup)
    (hmem : (m, f) ∈ batch) :
    (m ∈ (processDelivered process (deliverBatch g batch) batch).pending
      ↔ process m f = false) := by
  have hm0 : m ∈ (deliverBatch g batch).pending := by
    have : m ∈ batch.map Prod.fst := by
      have := List.mem_map_of_mem Prod.fst hmem
      simpa using this
    simp [deliverBatch, this]
  exact processDelivered_pending_iff process batch _ m f hnd hmem hm0

/-- Witness for C4: a two-message batch where processing succeeds on
message 1 and raises on message 2; afterwards message 2 is pending iff
its processing failed. -/
theorem read_stream_ack_iff_processing_succeeds_witness :
    (2 ∈ (processDelivered pOnlyOne
        (deliverBatch g0 [(1, sampleFields), (2, sampleFields)])
        [(1, sampleFields), (2, sampleFields)]).pending
      ↔ pOnlyOne 2 sampleFields = false) :=
  read_stream_ack_iff_processing_succeeds pOnlyOne g0
    [(1, sampleFields), (2, sampleFields)] 2 sampleFields
    (by decide) (by decide)

/-- C2 counterexample: the store layer of get_or_create_session is
check-then-insert, not an upsert.  Two racing calls for the fresh marker
s1 both see no row in their SELECT phase; the first insert commits, and
the second insert attempt for the now-existing session_id fails with a
duplicate-key error instead of degrading to a no-op last_updated
update. -/
theorem get_or_create_session_race_duplicate_key :
    gocsReadPhase "s1" { sessions := [], events := [] } = SessWrite.insertNew
    ∧ gocsWritePhase SessWrite.insertNew "s1" "u1" 1 { sessions := [], events := [] }
        = Except.ok dbAfterInsert
    ∧ gocsWritePhase SessWrite.insertNew "s1" "u1" 2 dbAfterInsert
        = Except.error (DbError.duplicateKey "sessions" "s1") := by
  refine ⟨rfl, rfl, rfl⟩

theorem find?_append_of_none {α : Type} (p : α → Bool) (l1 l2 : List α)
    (h : l1.find? p = none) : (l1 ++ l2).find? p = l2.find? p := by
  induction l1 with
  | nil => rfl
  | cons a l ih =>
      have hpa : ¬ p a = true := List.find?_eq_none.mp h a (List.mem_cons_self _ _)
      have htl : l.find? p = none :=
        List.find?_eq_none.mpr (fun x hx => List.find?_eq_none.mp h x (List.mem_cons_of_mem _ hx))
      rw [List.cons_append, List.find?_cons_of_neg _ hpa, ih htl]

/-- C2 amended: sequentially, two get_or_create_session calls with the
same nonempty session marker both return that marker, leave exactly one
Session row for it, and the second call touches last_updated to its call
time; but the write path is check-then-insert, so an insert attempt for a
session_id that already exists fails with a duplicate-key error (the race
of the counterexample) rather than degrading to an update. -/
theorem get_or_create_session_sequential_upsert
    (ui : UserInfo) (sid f1 f2 : String) (t1 t2 : Nat) (db : DB)
    (hSid : ui.session_state = some sid) (hne : sid.isEmpty = false)
    (habsent : ∀ r ∈ db.sessions, (r.session_id == sid) = false) :
    ∃ db1 db2 : DB,
      get_or_create_session ui f1 t1 db = Except.ok (sid, db1)
      ∧ get_or_create_session ui f2 t2 db1 = Except.ok (sid, db2)
      ∧ (db2.sessions.filter (fun r => r.session_id == sid)).length = 1
      ∧ (∀ r ∈ db2.sessions, (r.session_id == sid) = true → r.last_updated = t2)
      ∧ insertSessionRow { session_id := sid, userid := ui.sub, created_at := t2, last_updated := t2 } db1
          = Except.error (DbError.duplicateKey "sessions" sid) := by
  have hsid1 : sessionIdFromClaims ui f1 = sid := by
    simp [sessionIdFromClaims, hSid, hne]
  have hsid2 : sessionIdFromClaims ui f2 = sid := by
    simp [sessionIdFromClaims, hSid, hne]
  have hfind0 : db.sessions.find? (fun r => r.session_id == sid) = none := by
    rw [List.find?_eq_none]
    intro r hr
    simp [habsent r hr]
  have hany0 : db.sessions.any (fun r => r.session_id == sid) = false := by
    rw [List.any_eq_false]
    intro r hr
    simp [habsent r hr]
  have hfind1 : (db.sessions ++ [({ session_id := sid, userid := ui.sub, created_at := t1, last_updated := t1 } : SessionRow)]).find? (fun r => r.session_id == sid) = some { session_id := sid, userid := ui.sub, created_at := t1, last_updated := t1 } := by
    rw [find?_append_of_none _ _ _ hfind0, List.find?_cons_of_pos _ (by simp)]
  refine ⟨{ db with sessions := db.sessions ++ [({ session_id := sid, userid := ui.sub, created_at := t1, last_updated := t1 } : SessionRow)] },
    { db with sessions := (db.sessions ++ [({ session_id := sid, userid := ui.sub, created_at := t1, last_updated := t1 } : SessionRow)]).map (fun r : SessionRow => if r.session_id == sid then { r with last_updated := t2 } else r) },
    ?_, ?_, ?_, ?_, ?_⟩
  · simp only [get_or_create_session, hsid1, gocsReadPhase, hfind0, gocsWritePhase,
      insertSessionRow]
    simp [hany0]
  · simp only [get_or_create_session, hsid2, gocsReadPhase, hfind1, gocsWritePhase,
      touchSessionRow]
  · rw [List.map_append, List.filter_append]
    have h1 : ((db.sessions.map (fun r => if r.session_id == sid then { r with last_updated := t2 } else r)).filter (fun r => r.session_id == sid)) = [] := by
      rw [List.filter_eq_nil_iff]
      intro a ha
      obtain ⟨r, hr, rfl⟩ := List.mem_map.mp ha
      simp [habsent r hr]
    rw [h1]
    simp
  · intro r hr hmatch
    rw [List.map_append] at hr
    rcases List.mem_append.mp hr with hleft | hright
    · obtain ⟨x, hx, rfl⟩ := List.mem_map.mp hleft
      simp [habsent x hx] at hmatch
    · have : r = (fun r => if r.session_id == sid then { r with last_updated := t2 } else r) { session_id := sid, userid := ui.sub, created_at := t1, last_updated := t1 } := by
        simpa using hright
      rw [this]
      simp
  · simp only [insertSessionRow]
    simp [List.any_append, hany0]

/-- Witness for the amended C2 theorem: claim set ui0, marker s1, empty
initial store, call times 1 and 2. -/
theorem get_or_create_session_sequential_upsert_witness :
    ∃ db1 db2 : DB,
      get_or_create_session ui0 "f1" 1 { sessions := [], events := [] }
        = Except.ok ("s1", db1)
      ∧ get_or_create_session ui0 "f2" 2 db1 = Except.ok ("s1", db2)
      ∧ (db2.sessions.filter (fun r => r.session_id == "s1")).length = 1
      ∧ (∀ r ∈ db2.sessions, (r.session_id == "s1") = true → r.last_updated = 2)
      ∧ insertSessionRow { session_id := "s1", userid := ui0.sub, created_at := 2, last_updated := 2 } db1
          = Except.error (DbError.duplicateKey "sessions" "s1") :=
  get_or_create_session_sequential_upsert ui0 "s1" "f1" "f2" 1 2
    { sessions := [], events := [] } rfl rfl (by simp)

theorem validateStudyOpenedRequest_ok_conditions (r : StudyOpenedRequest)
    (x : StudyOpenedRequest) (h : validateStudyOpenedRequest r = Except.ok x) :
    (pyStrip r.study_id).isEmpty = false
    ∧ (pyStrip r.patient_id).isEmpty = false
    ∧ (pyStrip r.accession_number).isEmpty = false
    ∧ (pyStrip r.current_study_name).isEmpty = false
    ∧ (pyStrip r.source).isEmpty = false
    ∧ r.target.isEmpty = false
    ∧ ∀ a ∈ r.target, a ∈ valid_apps := by
  unfold validateStudyOpenedRequest at h
  by_cases h1 : (pyStrip r.study_id).isEmpty = true
  · rw [if_pos h1] at h; cases h
  rw [if_neg h1] at h
  by_cases h2 : (pyStrip r.patient_id).isEmpty = true
  · rw [if_pos h2] at h; cases h
  rw [if_neg h2] at h
  by_cases h3 : (pyStrip r.accession_number).isEmpty = true
  · rw [if_pos h3] at h; cases h
  rw [if_neg h3] at h
  by_cases h4 : (pyStrip r.current_study_name).isEmpty = true
  · rw [if_pos h4] at h; cases h
  rw [if_neg h4] at h
  by_cases h5 : (pyStrip r.source).isEmpty = true
  · rw [if_pos h5] at h; cases h
  rw [if_neg h5] at h
  by_cases h6 : r.target.isEmpty = true
  · rw [if_pos h6] at h; cases h
  rw [if_neg h6] at h
  cases hf : r.target.find? (fun a => !(valid_apps.contains a)) with
  | some a => rw [hf] at h; cases h
  | none =>
      refine ⟨by simpa using h1, by simpa using h2, by simpa using h3,
        by simpa using h4, by simpa using h5, by simpa using h6, ?_⟩
      intro a ha
      have hna := List.find?_eq_none.mp hf a ha
      simpa using hna

theorem validateStudyOpenedRequest_error_field (r : StudyOpenedRequest)
    (e : FieldError) (h : validateStudyOpenedRequest r = Except.error e) :
    e.field ∈ ["study_id", "patient_id", "accession_number",
        "current_study_name", "source", "target"] := by
  unfold validateStudyOpenedRequest at h
  by_cases h1 : (pyStrip r.study_id).isEmpty = true
  · rw [if_pos h1] at h; injection h with he; subst he; decide
  rw [if_neg h1] at h
  by_cases h2 : (pyStrip r.patient_id).isEmpty = true
  · rw [if_pos h2] at h; injection h with he; subst he; decide
  rw [if_neg h2] at h
  by_cases h3 : (pyStrip r.accession_number).isEmpty = true
  · rw [if_pos h3] at h; injection h with he; subst he; decide
  rw [if_neg h3] at h
  by_cases h4 : (pyStrip r.current_study_name).isEmpty = true
  · rw [if_pos h4] at h; injection h with he; subst he; decide
  rw [if_neg h4] at h
  by_cases h5 : (pyStrip r.source).isEmpty = true
  · rw [if_pos h5] at h; injection h with he; subst he; decide
  rw [if_neg h5] at h
  by_cases h6 : r.target.isEmpty = true
  · rw [if_pos h6] at h; injection h with he; subst he; decide
  rw [if_neg h6] at h
  cases hf : r.target.find? (fun a => !(valid_apps.contains a)) with
  | some a =>
      rw [hf] at h; injection h with he; subst he
      exact (by decide : ("target" : String) ∈ ["study_id", "patient_id",
        "accession_number", "current_study_name", "source", "target"])
  | none => rw [hf] at h; cases h

/-- C5: a study_opened request whose target list is empty or holds an
application outside the fixed set, or whose validated string fields
(study_id, patient_id, accession_number, current_study_name, source) are
empty after stripping whitespace, is rejected by the request validators
with an error naming a failing field, before the handler runs: the
endpoint returns the validation error and both the store (so
get_session_state and the event list) and the stream are unchanged. -/
theorem study_opened_invalid_request_rejected
    (raw : StudyOpenedRequest) (ui : UserInfo) (tr : StreamTransport)
    (freshSid eventId : String) (now : Nat) (db : DB) (s : List StreamEntry)
    (hbad : raw.target = []
      ∨ (∃ a ∈ raw.target, ¬ a ∈ valid_apps)
      ∨ (pyStrip raw.study_id).isEmpty = true
      ∨ (pyStrip raw.patient_id).isEmpty = true
      ∨ (pyStrip raw.accession_number).isEmpty = true
      ∨ (pyStrip raw.current_study_name).isEmpty = true
      ∨ (pyStrip raw.source).isEmpty = true) :
    ∃ e : FieldError,
      validateStudyOpenedRequest raw = Except.error e
      ∧ e.field ∈ ["study_id", "patient_id", "accession_number",
          "current_study_name", "source", "target"]
      ∧ study_opened raw ui tr freshSid eventId now db s
          = (EndpointResult.validationError e, db, s) := by
  cases hv : validateStudyOpenedRequest raw with
  | ok x =>
      exfalso
      obtain ⟨c1, c2, c3, c4, c5, c6, c7⟩ :=
        validateStudyOpenedRequest_ok_conditions raw x hv
      rcases hbad with hb | hb | hb | hb | hb | hb | hb
      · rw [hb] at c6; cases c6
      · obtain ⟨a, ha, hna⟩ := hb; exact hna (c7 a ha)
      · rw [c1] at hb; cases hb
      · rw [c2] at hb; cases hb
      · rw [c3] at hb; cases hb
      · rw [c4] at hb; cases hb
      · rw [c5] at hb; cases hb
  | error e =>
      refine ⟨e, rfl, validateStudyOpenedRequest_error_field raw e hv, ?_⟩
      simp [study_opened, hv]

/-- Witness for C5: the request raw0 with target list containing the
unknown application bogus is rejected and writes nothing. -/
theorem study_opened_invalid_request_rejected_witness :
    ∃ e : FieldError,
      validateStudyOpenedRequest raw0 = Except.error e
      ∧ e.field ∈ ["study_id", "patient_id", "accession_number",
          "current_study_name", "source", "target"]
      ∧ study_opened raw0 ui0 StreamTransport.available "f1" "e1" 7 dbOneSession []
          = (EndpointResult.validationError e, dbOneSession, []) :=
  study_opened_invalid_request_rejected raw0 ui0 StreamTransport.available "f1"
    "e1" 7 dbOneSession [] (Or.inr (Or.inl (by decide)))

/-- C6 counterexample: two events committed under session s1 with the
server clock stepping backwards (timestamps 10 then 5); get_session_state
returns them in store order with datetimes 10, 5, which is not sorted by
occurrence timestamp ascending. -/
theorem get_session_state_not_sorted :
    ((get_session_state ui0 (create_session_event "s1" ui0 "close_study"
        (some "st1") "dictation" ["viewer"] none "e2" 5
        (create_session_event "s1" ui0 "open_study" (some "st1") "dictation"
          ["viewer"] none "e1" 10 dbOneSession).2).2).session.events.map
      (fun v => v.datetime)) = [10, 5]
    ∧ ¬ List.Sorted (fun a b => a ≤ b)
        (((get_session_state ui0 (create_session_event "s1" ui0 "close_study"
            (some "st1") "dictation" ["viewer"] none "e2" 5
            (create_session_event "s1" ui0 "open_study" (some "st1") "dictation"
              ["viewer"] none "e1" 10 dbOneSession).2).2).session.events.map
          (fun v => v.datetime))) := by
  refine ⟨rfl, ?_⟩
  show ¬ List.Sorted (fun a b => a ≤ b) ([10, 5] : List Nat)
  decide

/-- C6 amended: get_session_state returns the session events in store
order (the order the rows are kept in, insertion order here) with no sort
applied; the pure read is idempotent, and the output is sorted by
occurrence timestamp ascending only when the stored event timestamps are
already nondecreasing (monotone server clock). -/
theorem get_session_state_events_store_order
    (ui : UserInfo) (db : DB) (sid : String) (srow : SessionRow)
    (hSid : ui.session_state = some sid) (hne : sid.isEmpty = false)
    (hfind : db.sessions.find? (fun r => r.session_id == sid) = some srow) :
    (get_session_state ui db).session.events
      = (db.events.filter (fun e => e.session_id == sid)).map eventView
    ∧ (List.Sorted (fun a b => a ≤ b) (db.events.map (fun e => e.datetime)) →
        List.Sorted (fun a b => a ≤ b)
          ((get_session_state ui db).session.events.map (fun v => v.datetime))) := by
  have heq := get_session_state_events_eq ui db sid srow hSid hne hfind
  refine ⟨heq, ?_⟩
  intro hsorted
  rw [heq, List.map_map]
  have hsub : (db.events.filter (fun e => e.session_id == sid)).Sublist db.events :=
    List.filter_sublist _
  have hsubm : ((db.events.filter (fun e => e.session_id == sid)).map
      (fun e => e.datetime)).Sublist (db.events.map (fun e => e.datetime)) :=
    hsub.map _
  exact List.Pairwise.sublist hsubm hsorted

/-- Witness for the amended C6 theorem at the concrete store dbSorted. -/
theorem get_session_state_events_store_order_witness :
    (get_session_state ui0 dbSorted).session.events
      = (dbSorted.events.filter (fun e => e.session_id == "s1")).map eventView
    ∧ (List.Sorted (fun a b => a ≤ b) (dbSorted.events.map (fun e => e.datetime)) →
        List.Sorted (fun a b => a ≤ b)
          ((get_session_state ui0 dbSorted).session.events.map (fun v => v.datetime))) :=
  get_session_state_events_store_order ui0 dbSorted "s1" srow0 rfl rfl rfl
